import Mathlib

/-!
Verification of the swimlane-python client library against its specification.

The Python source is shallowly embedded: each relevant function of
`swimlane/core/client.py`, `swimlane/core/resources/report.py` and
`swimlane/core/adapters/helper.py` is translated into an executable Lean
definition, and the spec's claims are stated and settled as theorems about
those definitions.
-/

namespace Swimlane

/-! ### Version comparison (`Swimlane._compare_version`, client.py) -/

/-- Maximal runs of decimal digits of a character list, in order: the model of
Python `re.findall` with pattern "digits, one or more" applied to a string. -/
def digitRuns : List Char → List (List Char)
  | [] => []
  | c :: cs =>
    let rest := digitRuns cs
    if c.isDigit then
      match cs, rest with
      | d :: _, run :: runs =>
          if d.isDigit then (c :: run) :: runs else [c] :: run :: runs
      | _, _ => [c] :: rest
    else rest

/-- All maximal digit runs of a version string, as strings, in order. -/
def findallDigits (s : String) : List String :=
  (digitRuns s.data).map (fun run => String.mk run)

/-- Python ordering of two strings given as character lists: lexicographic by
code point. -/
def pyCharListLt : List Char → List Char → Bool
  | [], [] => false
  | [], _ :: _ => true
  | _ :: _, [] => false
  | x :: xs, y :: ys =>
      if x < y then true else if y < x then false else pyCharListLt xs ys

/-- Python ordering of two strings: lexicographic by code point. -/
def pyStrLt (a b : String) : Bool :=
  pyCharListLt a.data b.data

/-- Python ordering of two tuples of strings: lexicographic, a strict prefix
coming first. -/
def pyStrTupleLt : List String → List String → Bool
  | [], [] => false
  | [], _ :: _ => true
  | _ :: _, [] => false
  | x :: xs, y :: ys =>
      if pyStrLt x y then true else if pyStrLt y x then false else pyStrTupleLt xs ys

/-- `Swimlane._compare_version` (client.py lines 96-120), with the server
version string made explicit.  The code extracts the digit runs of
`self.version` with `re.findall` — which yields *strings* — truncates to the
number of provided sections, and evaluates
`(versions > version_sections) - (versions < version_sections)` with Python's
tuple comparison.  The sections are modelled as the strings Python actually
compares; the function's own docstring passes integers, for which the
comparison is string-against-int and never returns 0. -/
def compare_version (apiVersion : String) (version_sections : List String) : Int :=
  let sections_provided := version_sections.length
  let versions := (findallDigits apiVersion).take sections_provided
  (if pyStrTupleLt version_sections versions then (1 : Int) else 0)
    - (if pyStrTupleLt versions version_sections then (1 : Int) else 0)

/-- Numeric value of a digit run. -/
def segmentVal (s : String) : Nat :=
  s.data.foldl (fun n c => n * 10 + (c.toNat - 48)) 0

/-- Python ordering of two tuples of naturals: lexicographic, a strict prefix
coming first. -/
def natTupleLt : List Nat → List Nat → Bool
  | [], [] => false
  | [], _ :: _ => true
  | _ :: _, [] => false
  | x :: xs, y :: ys =>
      if x < y then true else if y < x then false else natTupleLt xs ys

/-- Modelled from the spec: the comparison `_compare_version` is described to
perform — "parse dotted numeric segments from a version string, compare
tuple-wise against provided sections, return -1/0/1" — i.e. the extracted
segments are compared as *numbers*, as in the function's own docstring
(`_compare_version(2, 13) = 0` for server version `2.13.2-173414`). -/
def compare_version_spec (apiVersion : String) (sections : List Nat) : Int :=
  let versions := ((findallDigits apiVersion).map segmentVal).take sections.length
  (if natTupleLt sections versions then (1 : Int) else 0)
    - (if natTupleLt versions sections then (1 : Int) else 0)

/-! ### Endpoint normalization (`Swimlane.request`, client.py lines 62-65) -/

/-- The `while api_endpoint.startswith($SLASH)` loop of `Swimlane.request`:
drop every leading slash character. -/
def stripLeadingSlashes : List Char → List Char
  | [] => []
  | c :: cs => if c = '/' then stripLeadingSlashes cs else c :: cs

/-- Endpoint after `Swimlane.request`'s normalization loop. -/
def normalizeEndpoint (s : String) : String :=
  String.mk (stripLeadingSlashes s.data)

/-- The full URL `Swimlane.request` targets: `urljoin(host + '/api/',
endpoint)`; since the normalized endpoint is a plain relative reference and
the base path ends in a slash, `urljoin` appends it to `host + '/api/'`. -/
def apiUrl (host api_endpoint : String) : String :=
  host ++ "/api/" ++ normalizeEndpoint api_endpoint

/-! ### Reports (`swimlane/core/resources/report.py`) -/

/-- `Report._page_size` (report.py line 96). -/
def page_size : Nat := 50

/-- A filter entry as appended by `Report.filter` (report.py lines 137-141). -/
structure Filter where
  fieldId : String
  filterType : String
  value : String
  deriving DecidableEq, Repr

/-- The raw report body `Report._raw`: the fields `_get_paginated_body` and
`Report.filter` touch, with the remainder of the raw JSON dict — copied
untouched by `body = self._raw.copy()` — abstracted as one field. -/
structure RawReport where
  name : String
  filters : List Filter
  pageSize : Nat
  offset : Nat
  remainder : String
  deriving DecidableEq, Repr

/-- A record as built by `Report._build_record`: `Record(self.app, raw_data)`,
the app held by its id. -/
structure SwRecord (R : Type) where
  appId : String
  raw : R
  deriving DecidableEq, Repr

/-- A `Report` object: the app (held by its id), `self.name` (copied from the
raw body at construction), the raw body, and the record cache
`self.__records`. -/
structure Report (R : Type) where
  appId : String
  name : String
  raw : RawReport
  records : List (SwRecord R)
  deriving DecidableEq, Repr

/-- `Report.__init__` (report.py lines 98-104): store the app, copy the name
of the raw body, and start with an empty record cache. -/
def initReport {R : Type} (appId : String) (raw : RawReport) : Report R :=
  { appId := appId, name := raw.name, raw := raw, records := [] }

/-- `Report._get_paginated_body` (report.py lines 164-170): copy the raw body
and set `pageSize` to `Report._page_size` and `offset` to the page number. -/
def get_paginated_body (raw : RawReport) (page : Nat) : RawReport :=
  { raw with pageSize := page_size, offset := page }

/-- Modelled from the spec: the filter-operand constants `EQ`, `NOT_EQ`,
`CONTAINS`, `EXCLUDES` imported from `swimlane.core.search` (not among the
given source files); the spec lists the supported operands as equals,
not-equals, contains, excludes. -/
def FILTER_OPERANDS : List String :=
  ["equals", "notEquals", "contains", "excludes"]

/-- `Report.filter` (report.py lines 132-141), with the app's field lookup
`self.app.get_field_definition_by_name(field)['id']` passed in as
`fieldIdByName`.  Returns the report after the call together with the raised
`ValueError` message, if any; a raise leaves the report untouched. -/
def Report.filter {R : Type} (r : Report R) (fieldIdByName : String → String)
    (field operand value : String) : Report R × Option String :=
  if operand ∉ FILTER_OPERANDS then
    (r, some "Operand must be one of equals, notEquals, contains, excludes")
  else
    ({ r with
        raw := { r.raw with
          filters := r.raw.filters ++ [Filter.mk (fieldIdByName field) operand value] } },
      none)

/-- One page of the `search` endpoint's response as `Report.__iter__` reads
it: the `count` value and the `results` dict mapping app ids to lists of raw
record data. -/
structure PageResult (R : Type) where
  count : Nat
  results : List (String × List R)

/-- `result_data['results'].get(self.app.id, [])` (report.py line 117). -/
def pageRecords {R : Type} (pr : PageResult R) (appId : String) : List R :=
  (pr.results.lookup appId).getD []

/-- The fetch loop of `Report.__iter__` (report.py lines 114-124) run to
completion from page `page`: retrieve the page, build one record per raw
result for the app, yield them, and break when the page had no records or
`page * self._page_size >= count`.  Returns the yielded records and the
requested page numbers in order.  The Python loop `for page in
itertools.count()` is unbounded; `fuel` bounds the recursion and is
immaterial once it covers the stopping page. -/
def runPages {R : Type} (server : Nat → PageResult R) (appId : String) :
    Nat → Nat → List (SwRecord R) × List Nat
  | 0, _ => ([], [])
  | fuel + 1, page =>
    let result_data := server page
    let count := result_data.count
    let records := (pageRecords result_data appId).map (fun raw => SwRecord.mk appId raw)
    if records.isEmpty ∨ count ≤ page * page_size then
      (records, [page])
    else
      let rest := runPages server appId fuel (page + 1)
      (records ++ rest.1, page :: rest.2)

/-- One complete (uninterrupted) iteration of a `Report` (report.py lines
109-124): when the cache `self.__records` is nonempty, yield the cached
records and issue no request; otherwise run the fetch loop from page 0,
every yielded record being appended to the cache.  Returns the yielded
records, the requested page numbers, and the report afterwards. -/
def iterateReport {R : Type} (r : Report R) (server : Nat → PageResult R) (fuel : Nat) :
    List (SwRecord R) × List Nat × Report R :=
  if r.records.isEmpty then
    let run := runPages server r.appId fuel 0
    (run.1, run.2, { r with records := run.1 })
  else
    (r.records, [], r)

/-- `Report.clear_results` (report.py lines 149-151). -/
def clear_results {R : Type} (r : Report R) : Report R :=
  { r with records := [] }

/-- The stopping condition of the fetch loop at a page: the page's response
has no records for the app, or `page * self._page_size >= count` — the
cumulative record offset reached by the requests, `page * 50`, has reached
the `count` the page reported. -/
def stopsAt {R : Type} (server : Nat → PageResult R) (appId : String) (page : Nat) : Prop :=
  (pageRecords (server page) appId).isEmpty ∨ (server page).count ≤ page * page_size

instance stopsAtDecidable {R : Type} (server : Nat → PageResult R) (appId : String)
    (page : Nat) : Decidable (stopsAt server appId page) := by
  unfold stopsAt
  infer_instance

/-! ### Authentication (`SwimlaneAuth.authenticate`, client.py lines 138-168) -/

/-- The parts of the login response `SwimlaneAuth.authenticate` reads: the
optional `token` value of the response JSON (`json_content.get('token')`) and
the response cookie jar as name/value pairs (`resp.cookies.items()`). -/
structure LoginResponse where
  token : Option String
  cookies : List (String × String)

/-- `SwimlaneAuth.authenticate`: when the response JSON holds no token, the
legacy `Cookie` header joining the cookie `name=value` pairs with `;`;
otherwise the `Authorization: Bearer token` header. -/
def authenticate (resp : LoginResponse) : List (String × String) :=
  let token := resp.token
  match token with
  | none =>
      [("Cookie", String.intercalate ";" (resp.cookies.map (fun c => c.1 ++ "=" ++ c.2)))]
  | some t => [("Authorization", "Bearer " ++ t)]

/-! ### Response status handling (`Swimlane.request`, client.py lines 67-75) -/

/-- An HTTP response: status code and body. -/
structure HttpResponse where
  status : Nat
  body : String
  deriving DecidableEq, Repr

/-- The errors `Swimlane.request` raises for a response. -/
inductive RequestError
  | swimlaneHTTP400
  | httpError (status : Nat)
  deriving DecidableEq, Repr

/-- `requests.Response.raise_for_status`: raise `HTTPError` when the status
code is a 4xx client error or a 5xx server error. -/
def raise_for_status (resp : HttpResponse) : Except Nat HttpResponse :=
  if 400 ≤ resp.status ∧ resp.status < 500 then Except.error resp.status
  else if 500 ≤ resp.status ∧ resp.status < 600 then Except.error resp.status
  else Except.ok resp

/-- The response handling of `Swimlane.request`: `raise_for_status`, a raised
400 re-raised as `SwimlaneHTTP400Error`, any other `HTTPError` re-raised
unchanged, and a non-error response returned unchanged. -/
def requestHandleResponse (resp : HttpResponse) : Except RequestError HttpResponse :=
  match raise_for_status resp with
  | Except.error code =>
      if code = 400 then Except.error RequestError.swimlaneHTTP400
      else Except.error (RequestError.httpError code)
  | Except.ok r => Except.ok r

/-! ### Comment helper (`HelperAdapter.add_comment`, helper.py lines 36-69) -/

/-- A Python value, as far as the argument validation of
`HelperAdapter.add_comment` distinguishes values: a string, a boolean, or a
value of any other type. -/
inductive PyVal
  | str (s : String)
  | bool (b : Bool)
  | otherVal
  deriving DecidableEq, Repr

/-- The string held by a `PyVal`, for the well-typed cases. -/
def PyVal.strVal : PyVal → String
  | PyVal.str s => s
  | _ => ""

/-- Whether a `PyVal` is a string (`isinstance(v, str)`). -/
def PyVal.isStr : PyVal → Bool
  | PyVal.str _ => true
  | _ => false

/-- Whether a `PyVal` is a boolean (`isinstance(v, bool)`). -/
def PyVal.isBool : PyVal → Bool
  | PyVal.bool _ => true
  | _ => false

/-- Modelled from the spec: `validate_str` of `swimlane.utils.str_validator`
(not among the given source files) — the "local validation (type/format
checks on string arguments)" that "raises on malformed input": it raises a
ValueError unless the value is a string. -/
def validate_str (v : PyVal) (name : String) : Except String Unit :=
  match v with
  | PyVal.str _ => Except.ok ()
  | _ => Except.error (name ++ " must be a string value.")

/-- An HTTP request issued through `Swimlane.request`: method, endpoint, and
the JSON body rendered as key/value pairs. -/
structure HttpRequest where
  method : String
  endpoint : String
  jsonBody : List (String × String)
  deriving DecidableEq, Repr

/-- JSON rendering of a boolean body value. -/
def boolJson (b : Bool) : String :=
  if b then "true" else "false"

/-- `HelperAdapter.add_comment`: validate `app_id`, `record_id`, `field_id`
and `message` with `validate_str` and `rich_text` with `isinstance(_, bool)`,
raising before any request when a check fails; then send exactly one POST to
`app/.../record/.../.../comment`.  Returns the requests the call sent
together with the raised error, if any; the timestamp `pendulum.now()` is
passed in as `now`. -/
def add_comment (now : String) (app_id record_id field_id message rich_text : PyVal) :
    List HttpRequest × Option String :=
  match validate_str app_id "app_id" with
  | Except.error e => ([], some e)
  | Except.ok _ =>
    match validate_str record_id "record_id" with
    | Except.error e => ([], some e)
    | Except.ok _ =>
      match validate_str field_id "field_id" with
      | Except.error e => ([], some e)
      | Except.ok _ =>
        match validate_str message "message" with
        | Except.error e => ([], some e)
        | Except.ok _ =>
          match rich_text with
          | PyVal.bool b =>
              ([{ method := "post",
                  endpoint := "app/" ++ app_id.strVal ++ "/record/" ++ record_id.strVal
                    ++ "/" ++ field_id.strVal ++ "/comment",
                  jsonBody := [("message", message.strVal), ("isRichText", boolJson b),
                    ("createdDate", now)] }],
                none)
          | _ => ([], some "rich_text must be a boolean value.")

/-! ### Concrete data for witnesses and counterexamples -/

/-- A concrete raw report body. -/
def rawExample : RawReport :=
  { name := "All records", filters := [], pageSize := 50, offset := 0, remainder := "" }

/-- A concrete server: 110 records for app `app1` reported as `count`, pages
0, 1 and 2 nonempty, every later page empty. -/
def exampleServer : Nat → PageResult Nat := fun page =>
  if page = 0 then { count := 110, results := [("app1", [10, 11])] }
  else if page = 1 then { count := 110, results := [("app1", [12])] }
  else if page = 2 then { count := 110, results := [("app1", [13])] }
  else { count := 110, results := [] }

/-- A concrete server that reports zero records on every page. -/
def emptyServer : Nat → PageResult Nat := fun _ =>
  { count := 0, results := [] }

end Swimlane

namespace Swimlane

/-- C1: the code evaluated at the failing input.  For server version
`10.0`, `_compare_version` with the single section `9` compares the digit-run
strings `("10",)` and `("9",)` with Python string ordering, where
`"10" < "9"`, and returns -1 — while the numeric comparison the spec and the
function's docstring describe gives 1, the server version being greater. -/
theorem compare_version_string_order_diverges :
    compare_version "10.0" ["9"] = -1 ∧ compare_version_spec "10.0" [9] = 1 := by
  decide

/-- C9: `Swimlane.request` removes every leading slash of its endpoint before
building the URL, so for every host and endpoint the request for `endpoint`
and the request for `'/' + endpoint` target the same full API URL under
`host + '/api/'`. -/
theorem apiUrl_slash_invariant (host e : String) :
    apiUrl host ("/" ++ e) = apiUrl host e := by
  obtain ⟨l⟩ := e
  show host ++ "/api/" ++ normalizeEndpoint ("/" ++ String.mk l)
      = host ++ "/api/" ++ normalizeEndpoint (String.mk l)
  have hdata : ("/" ++ String.mk l) = String.mk ('/' :: l) := rfl
  simp only [hdata, normalizeEndpoint, stripLeadingSlashes, if_pos rfl, if_true,
    List.append_eq, List.nil_append]

/-- C3: the search body for a page has `pageSize` 50 and an offset advancing
by one page per page — the body's `offset` is the page index, so consecutive
pages advance it by one, and the record window it designates starts at
`offset * pageSize = page * 50` and spans 50 records: page 0 requests records
0..49, page 1 requests 50..99, and so on. -/
theorem get_paginated_body_pagination (raw : RawReport) (page : Nat) :
    (get_paginated_body raw page).pageSize = 50 ∧
    (get_paginated_body raw page).offset = page ∧
    (get_paginated_body raw (page + 1)).offset = (get_paginated_body raw page).offset + 1 ∧
    (get_paginated_body raw page).offset * (get_paginated_body raw page).pageSize =
      page * 50 := by
  exact ⟨rfl, rfl, rfl, rfl⟩

/-- The `if` condition of the fetch loop step is exactly the stopping
condition `stopsAt`. -/
theorem runPages_cond {R : Type} (server : Nat → PageResult R) (appId : String) (page : Nat) :
    (((pageRecords (server page) appId).map (fun raw => SwRecord.mk appId raw)).isEmpty
        ∨ (server page).count ≤ page * page_size) ↔ stopsAt server appId page := by
  unfold stopsAt
  generalize pageRecords (server page) appId = l
  cases l <;> simp

/-- Requests issued by the fetch loop started at `page` when the stopping
condition first holds `k` pages later: exactly the pages
`page, page + 1, ..., page + k`, in order. -/
theorem runPages_trace {R : Type} (server : Nat → PageResult R) (appId : String) :
    ∀ (k page fuel : Nat), (∀ j, j < k → ¬ stopsAt server appId (page + j)) →
      stopsAt server appId (page + k) → k < fuel →
      (runPages server appId fuel page).2 = List.range' page (k + 1) := by
  intro k
  induction k with
  | zero =>
    intro page fuel hmin hstop hfuel
    have hs : stopsAt server appId page := by simpa using hstop
    obtain ⟨f, rfl⟩ : ∃ f, fuel = f + 1 := ⟨fuel - 1, by omega⟩
    simp only [runPages]
    split
    next => rfl
    next h => exact absurd ((runPages_cond server appId page).mpr hs) h
  | succ k ih =>
    intro page fuel hmin hstop hfuel
    have hnot : ¬ stopsAt server appId page := by simpa using hmin 0 (Nat.succ_pos k)
    obtain ⟨f, rfl⟩ : ∃ f, fuel = f + 1 := ⟨fuel - 1, by omega⟩
    simp only [runPages]
    split
    next h => exact absurd ((runPages_cond server appId page).mp h) hnot
    next =>
      show page :: (runPages server appId f (page + 1)).2 = List.range' page (k + 1 + 1)
      have hmin2 : ∀ j, j < k → ¬ stopsAt server appId (page + 1 + j) := by
        intro j hj
        have h2 : page + 1 + j = page + (j + 1) := by omega
        rw [h2]
        exact hmin (j + 1) (by omega)
      have hstop2 : stopsAt server appId (page + 1 + k) := by
        have h2 : page + 1 + k = page + (k + 1) := by omega
        rw [h2]
        exact hstop
      rw [ih (page + 1) f hmin2 hstop2 (by omega)]
      exact (List.range'_succ page (k + 1) 1).symm

/-- C2: iterating a report with an empty cache requests pages 0, 1, 2, ... in
order and stops fetching exactly at the first page `P` whose response holds
no records for the app or whose cumulative record offset `P * 50` (the offset
the request for page `P` designates) reaches or exceeds the `count` the
server reported: the requests issued are exactly pages 0..P — none beyond,
none fewer.  `fuel` is any bound on the unbounded Python loop covering the
stopping page. -/
theorem report_pagination_stops_exactly (R : Type) (server : Nat → PageResult R)
    (r : Report R) (P fuel : Nat)
    (hcache : r.records = [])
    (hmin : ∀ j, j < P → ¬ stopsAt server r.appId j)
    (hstop : stopsAt server r.appId P)
    (hfuel : P < fuel) :
    (iterateReport r server fuel).2.1 = List.range (P + 1) := by
  have htrace := runPages_trace server r.appId P 0 fuel
    (by intro j hj; simpa using hmin j hj) (by simpa using hstop) hfuel
  rw [List.range_eq_range' (P + 1)]
  simpa [iterateReport, hcache] using htrace

/-- C2 witness: against the concrete server `exampleServer` (count 110,
pages 0..2 nonempty), a fresh report requests exactly pages 0, 1, 2, 3. -/
theorem report_pagination_stops_exactly_witness :
    (iterateReport (initReport "app1" rawExample : Report Nat) exampleServer 4).2.1 =
      List.range 4 :=
  report_pagination_stops_exactly Nat exampleServer (initReport "app1" rawExample) 3 4 rfl
    (by decide) (by decide) (by decide)

/-- C4 counterexample: the claim fails at a server that reports zero records.
The first iteration of a fresh report fully drains the server's results — it
fetches page 0, finds no records, yields nothing and stops — yet the next
iteration of the same report issues an HTTP request again (page 0) instead of
yielding without requests: the empty cache left by the complete first
iteration is indistinguishable from a never-run report. -/
theorem report_cache_refetch_counterexample :
    (iterateReport (iterateReport (initReport "app1" rawExample : Report Nat) emptyServer 1).2.2
        emptyServer 1).2.1 = [0] ∧
    ¬ (iterateReport (iterateReport (initReport "app1" rawExample : Report Nat) emptyServer 1).2.2
        emptyServer 1).2.1 = [] := by
  decide

/-- C4 amended: records are appended to the cache as they are yielded, and an
iteration serves the cache without requests exactly when the cache is
nonempty.  Hence (1) a report whose cache is nonempty yields the cached
records in order and issues no HTTP request, and (2) after a complete first
iteration that yielded at least one record, the next iteration yields exactly
the same records in the same order without issuing any HTTP request and
leaves the report unchanged. -/
theorem report_cache_behavior (R : Type) (server : Nat → PageResult R)
    (r : Report R) (fuel fuel2 : Nat) :
    (r.records ≠ [] → iterateReport r server fuel = (r.records, [], r)) ∧
    (r.records = [] → (iterateReport r server fuel).1 ≠ [] →
      iterateReport (iterateReport r server fuel).2.2 server fuel2 =
        ((iterateReport r server fuel).1, ([] : List Nat),
          (iterateReport r server fuel).2.2)) := by
  constructor
  · intro h
    simp [iterateReport, List.isEmpty_iff, h]
  · intro hc hy
    have h1 : iterateReport r server fuel =
        ((runPages server r.appId fuel 0).1, (runPages server r.appId fuel 0).2,
          { r with records := (runPages server r.appId fuel 0).1 }) := by
      simp [iterateReport, hc]
    rw [h1] at hy ⊢
    simp only at hy ⊢
    simp [iterateReport, List.isEmpty_iff, hy]

/-- C4 amended, witness: against `exampleServer` a fresh report's first
iteration yields four records; the second iteration yields them again with no
request and an unchanged report. -/
theorem report_cache_behavior_witness :
    iterateReport (iterateReport (initReport "app1" rawExample : Report Nat) exampleServer 4).2.2
        exampleServer 4 =
      ((iterateReport (initReport "app1" rawExample : Report Nat) exampleServer 4).1,
        ([] : List Nat),
        (iterateReport (initReport "app1" rawExample : Report Nat) exampleServer 4).2.2) :=
  (report_cache_behavior Nat exampleServer (initReport "app1" rawExample) 4 4).2 rfl (by decide)

/-- C5: `authenticate` returns the bearer-token `Authorization` header
exactly when the login response JSON holds a token, and otherwise falls back
to the legacy `Cookie` header joining the cookie `name=value` pairs with
`;`. -/
theorem authenticate_token_or_cookie (resp : LoginResponse) :
    (∀ t, resp.token = some t →
      authenticate resp = [("Authorization", "Bearer " ++ t)]) ∧
    (resp.token = none →
      authenticate resp =
        [("Cookie",
          String.intercalate ";" (resp.cookies.map (fun c => c.1 ++ "=" ++ c.2)))]) := by
  constructor
  · intro t ht
    simp [authenticate, ht]
  · intro ht
    simp [authenticate, ht]

/-- C5 witness: both branches at concrete login responses. -/
theorem authenticate_token_or_cookie_witness :
    authenticate { token := some "abc123", cookies := [] } =
      [("Authorization", "Bearer abc123")] ∧
    authenticate { token := none, cookies := [("sid", "1"), ("flag", "2")] } =
      [("Cookie", "sid=1;flag=2")] := by
  constructor
  · exact (authenticate_token_or_cookie _).1 "abc123" rfl
  · rw [(authenticate_token_or_cookie _).2 rfl]
    rfl

/-- C6: `Swimlane.request` raises `SwimlaneHTTP400Error` exactly on status
400, raises the generic `HTTPError` for every other 4xx or 5xx status, and
returns the response unchanged for every non-error status. -/
theorem request_status_handling (resp : HttpResponse) :
    requestHandleResponse resp =
      (if resp.status = 400 then Except.error RequestError.swimlaneHTTP400
       else if 400 ≤ resp.status ∧ resp.status < 600 then
         Except.error (RequestError.httpError resp.status)
       else Except.ok resp) := by
  unfold requestHandleResponse raise_for_status
  split_ifs <;> simp_all <;> omega

/-- C7: `add_comment` raises a local validation error sending no HTTP
request exactly when one of `app_id`, `record_id`, `field_id`, `message` is
not a string or `rich_text` is not a boolean; when all arguments are
well-formed exactly one HTTP request is sent. -/
theorem add_comment_validation (now : String)
    (app_id record_id field_id message rich_text : PyVal) :
    ((add_comment now app_id record_id field_id message rich_text).2 = none ↔
      (app_id.isStr ∧ record_id.isStr ∧ field_id.isStr ∧ message.isStr ∧
        rich_text.isBool)) ∧
    ((add_comment now app_id record_id field_id message rich_text).2 ≠ none →
      (add_comment now app_id record_id field_id message rich_text).1 = []) ∧
    ((add_comment now app_id record_id field_id message rich_text).2 = none →
      (add_comment now app_id record_id field_id message rich_text).1.length = 1) := by
  cases app_id <;> cases record_id <;> cases field_id <;> cases message <;>
    cases rich_text <;>
    simp [add_comment, validate_str, PyVal.isStr, PyVal.isBool]

/-- C7 witness: well-formed arguments send exactly one request; a non-string
`app_id` raises and sends none. -/
theorem add_comment_validation_witness :
    (add_comment "2020-01-01T00:00:00Z" (PyVal.str "a") (PyVal.str "r") (PyVal.str "f")
      (PyVal.str "m") (PyVal.bool true)).1.length = 1 ∧
    (add_comment "2020-01-01T00:00:00Z" PyVal.otherVal (PyVal.str "r") (PyVal.str "f")
      (PyVal.str "m") (PyVal.bool true)).1 = [] := by
  constructor
  · exact (add_comment_validation "2020-01-01T00:00:00Z" _ _ _ _ _).2.2 rfl
  · exact (add_comment_validation "2020-01-01T00:00:00Z" _ _ _ _ _).2.1 (by decide)

/-- C8: `Report.filter` raises `ValueError` exactly when the operand is not
among the supported filter operands; a raise leaves the report — its filters
list included — unchanged; a supported operand appends exactly one filter
entry with that field id, filterType and value, changing nothing else. -/
theorem report_filter_operand_check (R : Type) (fieldIdByName : String → String)
    (r : Report R) (field operand value : String) :
    ((r.filter fieldIdByName field operand value).2 ≠ none ↔
      operand ∉ FILTER_OPERANDS) ∧
    (operand ∉ FILTER_OPERANDS → (r.filter fieldIdByName field operand value).1 = r) ∧
    (operand ∈ FILTER_OPERANDS →
      (r.filter fieldIdByName field operand value).1 =
        { r with raw := { r.raw with
            filters := r.raw.filters ++ [Filter.mk (fieldIdByName field) operand value] } }) := by
  by_cases h : operand ∈ FILTER_OPERANDS <;> simp [Report.filter, h]

/-- C8 witness: an unsupported operand raises and leaves the report
unchanged; the operand `equals` appends one filter entry. -/
theorem report_filter_operand_check_witness :
    ((initReport "app1" rawExample : Report Nat).filter (fun _ => "f1") "Name" "badOp" "x").1
      = initReport "app1" rawExample ∧
    ((initReport "app1" rawExample : Report Nat).filter
        (fun _ => "f1") "Name" "equals" "x").1.raw.filters
      = [Filter.mk "f1" "equals" "x"] := by
  constructor
  · exact (report_filter_operand_check Nat (fun _ => "f1") (initReport "app1" rawExample)
      "Name" "badOp" "x").2.1 (by decide)
  · rw [(report_filter_operand_check Nat (fun _ => "f1") (initReport "app1" rawExample)
      "Name" "equals" "x").2.2 (by decide)]
    decide

/-- C10: `clear_results` empties the cached record list and changes nothing
else — the raw body (name, filters, pageSize, offset and the untouched
remainder) and the report's own name and app are unchanged — and the next
iteration re-fetches from the server: its requests are exactly those of a
fresh fetch loop started at page 0. -/
theorem clear_results_frame (R : Type) (r : Report R) (server : Nat → PageResult R)
    (fuel : Nat) :
    (clear_results r).records = [] ∧
    (clear_results r).raw = r.raw ∧
    (clear_results r).name = r.name ∧
    (clear_results r).appId = r.appId ∧
    (iterateReport (clear_results r) server fuel).2.1 = (runPages server r.appId fuel 0).2 := by
  refine ⟨rfl, rfl, rfl, rfl, ?_⟩
  simp [iterateReport, clear_results]

end Swimlane
